import Mathlib

/-
  Verification development for the UNO R4 WiFi MIDI player firmware
  (MidiMcpPlayer/MidiMcpPlayer.ino).

  The playback engine, transport handlers and the sequence-load pipeline of
  the sketch are embedded shallowly below.  Machine integers are modelled as
  Nat with explicit reduction modulo 2^32 at the one place the C++ code
  truncates a wider value into uint32_t; all stored durations are kept in
  the uint16 range by the validation code itself, which the theorems track.
-/

namespace MidiMcp

/-- Modulus of the C++ uint32_t type. -/
def UINT32_MOD : Nat := 4294967296

/-- Capacity of the event buffer (MAX_EVENTS in the sketch). -/
def MAX_EVENTS : Nat := 64

/-- Default MIDI channel (DEFAULT_MIDI_CHANNEL in the sketch). -/
def DEFAULT_MIDI_CHANNEL : Nat := 1

/-- One step of the phrase; mirrors struct MusicEvent. -/
structure MusicEvent where
  isNote : Bool
  note : Nat
  velocity : Nat
  ticks : Nat
  deriving Repr, DecidableEq

/-- The stored sequence with its scaling provenance; mirrors struct
MusicSequence.  The fixed array plus count pair of the C++ code is modelled
as a list whose length is the count. -/
structure MusicSequence where
  events : List MusicEvent
  channel : Nat
  sourceTicksPerQuarter : Nat
  appliedTicksPerQuarter : Nat
  ticksPerQuarterProvided : Bool
  autoScaledTicks : Bool
  deriving Repr, DecidableEq

/-- The process-wide mutable state of the sketch: the stored sequence, the
transport flags and the run-time cursor. -/
structure EngineState where
  seq : MusicSequence
  sequenceLoaded : Bool
  playing : Bool
  startPending : Bool
  midiRunning : Bool
  currentEventIndex : Nat
  clockPosition : Nat
  eventEndTick : Nat
  noteActive : Bool
  activeNote : Nat
  activeVelocity : Nat
  deriving Repr, DecidableEq

/-- Outbound MIDI messages emitted by the sketch. -/
inductive MidiMsg where
  | noteOn (note velocity channel : Nat)
  | noteOff (note channel : Nat)
  deriving Repr, DecidableEq

/-- Channel actually used for emissions: sequence.channel with fallback to
the default channel when it is zero (pattern repeated through the sketch). -/
def effChannel (s : EngineState) : Nat :=
  if s.seq.channel = 0 then DEFAULT_MIDI_CHANNEL else s.seq.channel

/-- stopPlayback(keepPending) of the sketch: silence an active note, clear
the run-time cursor, leave Playing; startPending survives only when
keepPending is set. -/
def stopPlayback (keepPending : Bool) (s : EngineState) :
    EngineState × List MidiMsg :=
  let out := if s.noteActive then [MidiMsg.noteOff s.activeNote (effChannel s)] else []
  ({ s with
      noteActive := false
      playing := false
      clockPosition := 0
      eventEndTick := 0
      currentEventIndex := 0
      startPending := if keepPending then s.startPending else false },
   out)

/-- Placeholder event used to read the current list entry; the guard of
startCurrentEvent makes the index in range, so the default is never the
value read. -/
def defaultEvent : MusicEvent :=
  { isNote := false, note := 0, velocity := 0, ticks := 0 }

/-- startCurrentEvent of the sketch: when playing and the index is in range,
compute the end tick of the current event and emit Note On for a note;
otherwise fall back to stopPlayback(false). -/
def startCurrentEvent (s : EngineState) : EngineState × List MidiMsg :=
  if s.playing = false ∨ s.seq.events.length ≤ s.currentEventIndex then
    stopPlayback false s
  else
    let ev := s.seq.events.getD s.currentEventIndex defaultEvent
    let s1 := { s with eventEndTick := (s.clockPosition + ev.ticks) % UINT32_MOD }
    if ev.isNote then
      ({ s1 with noteActive := true, activeNote := ev.note, activeVelocity := ev.velocity },
       [MidiMsg.noteOn ev.note ev.velocity (effChannel s1)])
    else
      ({ s1 with noteActive := false }, [])

/-- finishCurrentEvent of MidiMcpPlayer.ino: silence the note, then advance
the index; when the index reaches the count, WRAP it back to 0 and keep
going (the sketch prints Looping sequence here), stopping only for an empty
sequence; then start the newly current event. -/
def finishCurrentEvent (s : EngineState) : EngineState × List MidiMsg :=
  let out := if s.noteActive then [MidiMsg.noteOff s.activeNote (effChannel s)] else []
  let s1 := { s with noteActive := false }
  if s1.playing = false then (s1, out)
  else
    let n := s1.seq.events.length
    let idx := s1.currentEventIndex + 1
    if n ≤ idx then
      if n = 0 then
        let r := stopPlayback false { s1 with currentEventIndex := 0 }
        (r.1, out ++ r.2)
      else
        let r := startCurrentEvent { s1 with currentEventIndex := 0 }
        (r.1, out ++ r.2)
    else
      let r := startCurrentEvent { s1 with currentEventIndex := idx }
      (r.1, out ++ r.2)

/-- beginPlayback of the sketch: with nothing loaded it only clears the
pending intent; otherwise it resets the cursor, enters Playing and starts
event 0. -/
def beginPlayback (s : EngineState) : EngineState × List MidiMsg :=
  if s.sequenceLoaded = false ∨ s.seq.events.length = 0 then
    ({ s with startPending := false }, [])
  else
    startCurrentEvent
      { s with currentEventIndex := 0, clockPosition := 0, eventEndTick := 0,
               noteActive := false, playing := true, startPending := false }

/-- Fueled version of the while loop in handleMidiClock.  Every stored
duration is at least 1 after validation, so on states produced by the
sketch the loop body runs at most once per pulse; the fuel is far above
any reachable iteration count and never changes observable behaviour. -/
def clockLoop : Nat → EngineState → EngineState × List MidiMsg
  | 0, s => (s, [])
  | fuel + 1, s =>
    if s.playing = true ∧ s.eventEndTick ≤ s.clockPosition then
      let r1 := finishCurrentEvent s
      let r2 := clockLoop fuel r1.1
      (r2.1, r1.2 ++ r2.2)
    else (s, [])

/-- Fuel bound for the clock loop. -/
def CLOCK_FUEL : Nat := 130

/-- handleMidiClock of the sketch: ignore pulses while the transport is not
running, fire a deferred begin, advance the tick position by one modulo
2^32, and complete every event whose end tick has been reached. -/
def handleMidiClock (s : EngineState) : EngineState × List MidiMsg :=
  if s.midiRunning = false then (s, [])
  else
    let r1 :=
      if s.startPending = true ∧ s.playing = false ∧ s.sequenceLoaded = true then
        beginPlayback s
      else (s, [])
    let s1 := r1.1
    if s1.playing = false then (s1, r1.2)
    else
      let s2 := { s1 with clockPosition := (s1.clockPosition + 1) % UINT32_MOD }
      let r3 := clockLoop CLOCK_FUEL s2
      (r3.1, r1.2 ++ r3.2)

/-- handleMidiStart of the sketch: mark the transport running, zero the tick
counters, stop any active playback while preserving pending intent, re-arm
when something was playing, and begin when armed and loaded. -/
def handleMidiStart (s : EngineState) : EngineState × List MidiMsg :=
  let s0 := { s with midiRunning := true, clockPosition := 0, eventEndTick := 0 }
  let wasPlaying := s0.playing
  let r1 := if s0.playing = true then stopPlayback true s0 else (s0, [])
  let s2 := if wasPlaying then { r1.1 with startPending := true } else r1.1
  if s2.startPending = true ∧ s2.sequenceLoaded = true then
    let r3 := beginPlayback s2
    (r3.1, r1.2 ++ r3.2)
  else (s2, r1.2)

/-- handleMidiStop of the sketch: mark the transport stopped and stop active
playback while preserving the pending intent. -/
def handleMidiStop (s : EngineState) : EngineState × List MidiMsg :=
  let s0 := { s with midiRunning := false }
  if s0.playing = true then stopPlayback true s0 else (s0, [])

/-- handleMidiContinue of the sketch: mark the transport running, zero the
tick counters, and begin when armed and loaded.  Note that it does NOT stop
playback that is already active. -/
def handleMidiContinue (s : EngineState) : EngineState × List MidiMsg :=
  let s0 := { s with midiRunning := true, clockPosition := 0, eventEndTick := 0 }
  if s0.startPending = true ∧ s0.sequenceLoaded = true then beginPlayback s0
  else (s0, [])

/-- Debounced press edge of the D4 transport button (the buttonState LOW
branch of handleButton): toggle between stopping and arming. -/
def handleButtonPress (s : EngineState) : EngineState × List MidiMsg :=
  if s.playing = true ∨ s.startPending = true then stopPlayback false s
  else if s.sequenceLoaded = true then
    let s1 := { s with startPending := true }
    if s1.midiRunning = true then beginPlayback s1 else (s1, [])
  else (s, [])

/-- One parsed item of the posted sequence array, with the field values as
the C++ code extracts them: type as a string (empty when missing), ticks as
uint32, note and velocity as int. -/
structure EventInput where
  type : String
  ticks : Nat
  note : Int
  velocity : Int
  deriving Repr, DecidableEq

/-- One parsed load request: the sequence array, the channel as uint8, and
the requested resolution as uint32 (the first nonzero of the
ticksPerQuarter and ppqn fields, zero when neither is present). -/
structure LoadInput where
  seqItems : List EventInput
  channel : Nat
  ticksPerQuarter : Nat
  deriving Repr, DecidableEq

/-- Error outcomes of handleSequencePost that the core validation and
scaling code can produce. -/
inductive LoadError where
  | sequence_required
  | ticks_per_quarter_out_of_range
  | sequence_too_long
  | ticks_must_be_positive
  | invalid_event_type
  | note_out_of_range
  | ticks_after_scaling_out_of_range
  | ticks_too_large
  deriving Repr, DecidableEq

/-- gcd32 of the sketch: the loop at lines 67 to 74 is the iterative Euclid
algorithm on uint32, returning a when b is 0, i.e. the greatest common
divisor. -/
def gcd32 (a b : Nat) : Nat := Nat.gcd a b

/-- The validation loop of handleSequencePost (lines 275 to 326): walk the
posted items carrying the running count and gcd, building the staged events
(with ticks still 0, as in the sketch) and the raw tick list.  The capacity
check runs at the top of each iteration, then the ticks check, then the
type dispatch with the note range check. -/
def validateLoop :
    List EventInput → Nat → Nat →
      Except LoadError (List MusicEvent × List Nat × Nat)
  | [], _, g => Except.ok ([], [], g)
  | item :: rest, count, g =>
    if MAX_EVENTS ≤ count then Except.error LoadError.sequence_too_long
    else if item.ticks = 0 then Except.error LoadError.ticks_must_be_positive
    else
      let g1 := if g = 0 then item.ticks else gcd32 g item.ticks
      if item.type = "note" then
        if item.note < 0 ∨ 127 < item.note then Except.error LoadError.note_out_of_range
        else
          let vel : Int :=
            if item.velocity < 1 ∨ 127 < item.velocity then 100 else item.velocity
          let ev : MusicEvent :=
            { isNote := true, note := item.note.toNat, velocity := vel.toNat, ticks := 0 }
          match validateLoop rest (count + 1) g1 with
          | Except.error e => Except.error e
          | Except.ok (evs, raws, g2) => Except.ok (ev :: evs, item.ticks :: raws, g2)
      else if item.type = "rest" then
        let ev : MusicEvent := { isNote := false, note := 0, velocity := 0, ticks := 0 }
        match validateLoop rest (count + 1) g1 with
        | Except.error e => Except.error e
        | Except.ok (evs, raws, g2) => Except.ok (ev :: evs, item.ticks :: raws, g2)
      else Except.error LoadError.invalid_event_type

/-- The per-duration rescaling of the explicit-resolution branch (lines 339
to 345): a 64-bit rounding division truncated into uint32_t, with a zero
result floored to 1.  The truncation happens BEFORE the zero test and the
range test, exactly as in the source. -/
def scaleExplicitOne (ticks tpq : Nat) : Nat :=
  let scaled := ((ticks * 24 + tpq / 2) / tpq) % UINT32_MOD
  if scaled = 0 then 1 else scaled

/-- The explicit-resolution scaling loop (lines 337 to 353): rescale every
raw duration, rejecting any result above 65535. -/
def scaleExplicitList : List Nat → Nat → Except LoadError (List Nat)
  | [], _ => Except.ok []
  | t :: rest, tpq =>
    let scaled := scaleExplicitOne t tpq
    if 65535 < scaled then Except.error LoadError.ticks_after_scaling_out_of_range
    else
      match scaleExplicitList rest tpq with
      | Except.error e => Except.error e
      | Except.ok l => Except.ok (scaled :: l)

/-- The implicit downsampling loop (lines 362 to 373): divide every raw
duration by the scale factor, floor a zero result to 1, reject results
above 65535. -/
def scaleImplicitList (scaleFactor : Nat) : List Nat → Except LoadError (List Nat)
  | [] => Except.ok []
  | t :: rest =>
    let scaled0 := t / scaleFactor
    let scaled := if scaled0 = 0 then 1 else scaled0
    if 65535 < scaled then Except.error LoadError.ticks_too_large
    else
      match scaleImplicitList scaleFactor rest with
      | Except.error e => Except.error e
      | Except.ok l => Except.ok (scaled :: l)

/-- The no-scaling pass (lines 381 to 388): keep raw durations, rejecting
any above 65535. -/
def checkRawList : List Nat → Except LoadError (List Nat)
  | [] => Except.ok []
  | t :: rest =>
    if 65535 < t then Except.error LoadError.ticks_too_large
    else
      match checkRawList rest with
      | Except.error e => Except.error e
      | Except.ok l => Except.ok (t :: l)

/-- Scale factor chosen by the implicit branch (lines 356 to 359): gcd
divided by 24 when the gcd is at least 24 and an exact multiple of it,
otherwise 1. -/
def implicitFactor (g : Nat) : Nat :=
  if 24 ≤ g ∧ g % 24 = 0 then g / 24 else 1

/-- Pair the staged events with their final scaled durations (the ticks
assignments inside the scaling loops). -/
def zipTicks : List MusicEvent → List Nat → List MusicEvent
  | e :: es, t :: ts => { e with ticks := t } :: zipTicks es ts
  | _, _ => []

/-- Result of a load request: the state after the handler, the messages it
emitted, and the error if it rejected. -/
structure LoadOut where
  state : EngineState
  out : List MidiMsg
  err : Option LoadError
  deriving Repr, DecidableEq

/-- The commit block of handleSequencePost (lines 404 to 417): replace the
stored sequence wholesale, clear the pending intent, and only THEN stop any
active playback, so the Note Off of stopPlayback is emitted with the new
channel already in place. -/
def commitLoad (s : EngineState) (events : List MusicEvent)
    (channel srcTpq : Nat) (provided autoScaled : Bool) :
    EngineState × List MidiMsg :=
  let s1 := { s with
    seq := { events := events, channel := channel,
             sourceTicksPerQuarter := srcTpq, appliedTicksPerQuarter := 24,
             ticksPerQuarterProvided := provided, autoScaledTicks := autoScaled },
    sequenceLoaded := decide (0 < events.length),
    startPending := false }
  if s1.playing = true then stopPlayback false s1 else (s1, [])

/-- handleSequencePost of MidiMcpPlayer.ino, from the point where the JSON
payload has been parsed: validate, scale, and commit.  Note that line 334
clears sequence.autoScaledTicks in the live state BEFORE the scaling loops
run, so scaling-phase rejections leave that flag cleared. -/
def handleSequencePost (inp : LoadInput) (s : EngineState) : LoadOut :=
  if inp.seqItems.length = 0 then
    { state := s, out := [], err := some LoadError.sequence_required }
  else
    let channel := if inp.channel < 1 ∨ 16 < inp.channel then DEFAULT_MIDI_CHANNEL else inp.channel
    let provided : Bool := decide (0 < inp.ticksPerQuarter)
    let requested := if inp.ticksPerQuarter = 0 then 24 else inp.ticksPerQuarter
    if provided = true ∧ 65535 < inp.ticksPerQuarter then
      { state := s, out := [], err := some LoadError.ticks_per_quarter_out_of_range }
    else
      match validateLoop inp.seqItems 0 0 with
      | Except.error e => { state := s, out := [], err := some e }
      | Except.ok (tempEvents, rawTicks, gcdTicks) =>
        let s0 := { s with seq := { s.seq with autoScaledTicks := false } }
        if provided = true then
          match scaleExplicitList rawTicks requested with
          | Except.error e => { state := s0, out := [], err := some e }
          | Except.ok scaledTicks =>
            let r := commitLoad s0 (zipTicks tempEvents scaledTicks) channel
                       (min requested 65535) provided false
            { state := r.1, out := r.2, err := none }
        else
          let scaleFactor := implicitFactor gcdTicks
          if 1 < scaleFactor then
            match scaleImplicitList scaleFactor rawTicks with
            | Except.error e => { state := s0, out := [], err := some e }
            | Except.ok scaledTicks =>
              let r := commitLoad s0 (zipTicks tempEvents scaledTicks) channel
                         (min (scaleFactor * 24) 65535) provided true
              { state := r.1, out := r.2, err := none }
          else
            match checkRawList rawTicks with
            | Except.error e => { state := s0, out := [], err := some e }
            | Except.ok scaledTicks =>
              let r := commitLoad s0 (zipTicks tempEvents scaledTicks) channel
                         24 provided false
              { state := r.1, out := r.2, err := none }

/-- The abstract operations the core consumes in one polling cycle. -/
inductive Op where
  | load (inp : LoadInput)
  | clock
  | start
  | stop
  | cont
  | button
  deriving Repr, DecidableEq

/-- Dispatch one operation against the state. -/
def step (op : Op) (s : EngineState) : EngineState × List MidiMsg :=
  match op with
  | Op.load inp =>
    let r := handleSequencePost inp s
    (r.state, r.out)
  | Op.clock => handleMidiClock s
  | Op.start => handleMidiStart s
  | Op.stop => handleMidiStop s
  | Op.cont => handleMidiContinue s
  | Op.button => handleButtonPress s

/-- State after setup(): empty sequence on the default channel, every flag
clear, cursor at zero. -/
def initState : EngineState :=
  { seq := { events := [], channel := DEFAULT_MIDI_CHANNEL,
             sourceTicksPerQuarter := 24, appliedTicksPerQuarter := 24,
             ticksPerQuarterProvided := false, autoScaledTicks := false },
    sequenceLoaded := false, playing := false, startPending := false,
    midiRunning := false, currentEventIndex := 0, clockPosition := 0,
    eventEndTick := 0, noteActive := false, activeNote := 0, activeVelocity := 0 }

/-- Run a list of operations from a given state, accumulating emissions in
order. -/
def runFrom (s : EngineState) : List Op → EngineState × List MidiMsg
  | [] => (s, [])
  | op :: ops =>
    let r1 := step op s
    let r2 := runFrom r1.1 ops
    (r2.1, r1.2 ++ r2.2)

/-- Run a list of operations from the boot state. -/
def run (ops : List Op) : EngineState × List MidiMsg :=
  runFrom initState ops

/-- Effect of one outbound message on the multiset of sounding notes of an
attached synth, identified by note number and channel: Note On starts a
note, Note Off silences the matching note on the SAME channel (MIDI note
messages are channel-scoped). -/
def applyMsg (sounding : List (Nat × Nat)) : MidiMsg → List (Nat × Nat)
  | MidiMsg.noteOn n _ ch => (n, ch) :: sounding
  | MidiMsg.noteOff n ch => sounding.filter (fun p => decide (p ≠ (n, ch)))

/-- Notes left sounding after a trace of emissions. -/
def soundingNotes (msgs : List MidiMsg) : List (Nat × Nat) :=
  msgs.foldl applyMsg []

/-- Running gcd over the raw durations as the validation loop accumulates
it, seeded with 0. -/
def rawGcd (items : List EventInput) : Nat :=
  List.foldl Nat.gcd 0 (items.map EventInput.ticks)

/-- A note item of the posted sequence with explicit velocity 100. -/
def noteItem (note ticks : Nat) : EventInput :=
  { type := "note", ticks := ticks, note := note, velocity := 100 }

/-- Load request: one note of 24 ticks on channel 1, no declared resolution. -/
def loadA : LoadInput := { seqItems := [noteItem 60 24], channel := 1, ticksPerQuarter := 0 }

/-- Load request: one note of 24 ticks on channel 2, no declared resolution. -/
def loadB : LoadInput := { seqItems := [noteItem 62 24], channel := 2, ticksPerQuarter := 0 }

/-- Load request: a single one-tick note on channel 1. -/
def loadOneTick : LoadInput := { seqItems := [noteItem 60 1], channel := 1, ticksPerQuarter := 0 }

/-- Reachable state in which the single 24-tick note of loadA is playing on
channel 1 after external Start. -/
def playingState : EngineState := (run [Op.load loadA, Op.button, Op.start]).1

/-- Load request with raw durations 48, 24, 96 and no declared resolution. -/
def load48 : LoadInput :=
  { seqItems := [noteItem 60 48, noteItem 62 24, noteItem 64 96], channel := 1,
    ticksPerQuarter := 0 }

/-- Load request with raw durations 24, 12, 36 and no declared resolution. -/
def load2436 : LoadInput :=
  { seqItems := [noteItem 60 24, noteItem 62 12, noteItem 64 36], channel := 1,
    ticksPerQuarter := 0 }

/-- Load request with raw durations 96, 48, 192 and no declared resolution. -/
def load96 : LoadInput :=
  { seqItems := [noteItem 60 96, noteItem 62 48, noteItem 64 192], channel := 1,
    ticksPerQuarter := 0 }

/-- Load request whose duration makes the 64-bit scaled value 4294967304,
which the uint32_t cast truncates to 8. -/
def loadHuge : LoadInput :=
  { seqItems := [noteItem 60 178956971], channel := 1, ticksPerQuarter := 1 }

/-- Load request that triggers the implicit downsampling (gcd 48), setting
the autoScaledTicks flag. -/
def loadAuto : LoadInput :=
  { seqItems := [noteItem 60 48, noteItem 62 48], channel := 1, ticksPerQuarter := 0 }

/-- Load request that passes validation and then fails in the explicit
scaling phase (70000 ticks at declared resolution 1 scales to 1680000). -/
def loadScaleFail : LoadInput :=
  { seqItems := [noteItem 60 70000], channel := 2, ticksPerQuarter := 1 }

/-- An event item with the invalid duration 0. -/
def zeroTickItem : EventInput := { type := "note", ticks := 0, note := 60, velocity := 100 }

/-- A 65-item load request whose FIRST item has the invalid duration 0. -/
def loadLongBadFirst : LoadInput :=
  { seqItems := zeroTickItem :: List.replicate 64 (noteItem 60 24), channel := 1,
    ticksPerQuarter := 0 }

/-- The commit block always clears the pending intent: both its branches
set startPending to false (directly, or through stopPlayback false). -/
@[simp]
lemma commitLoad_startPending (s : EngineState) (evs : List MusicEvent) (ch src : Nat)
    (p a : Bool) : (commitLoad s evs ch src p a).1.startPending = false := by
  obtain ⟨sq, ld, pl, pd, mr, idx, pos, ed, na, an, av⟩ := s
  cases pl <;> simp [commitLoad, stopPlayback]

/-- The commit block always leaves the engine not Playing: either it was
not playing, or stopPlayback has just run. -/
@[simp]
lemma commitLoad_playing (s : EngineState) (evs : List MusicEvent) (ch src : Nat)
    (p a : Bool) : (commitLoad s evs ch src p a).1.playing = false := by
  obtain ⟨sq, ld, pl, pd, mr, idx, pos, ed, na, an, av⟩ := s
  cases pl <;> simp [commitLoad, stopPlayback]

/-- The sequence stored by the commit block is exactly the one assembled
from the staged events; stopPlayback does not touch it. -/
@[simp]
lemma commitLoad_seq (s : EngineState) (evs : List MusicEvent) (ch src : Nat)
    (p a : Bool) :
    (commitLoad s evs ch src p a).1.seq =
      { events := evs, channel := ch, sourceTicksPerQuarter := src,
        appliedTicksPerQuarter := 24, ticksPerQuarterProvided := p,
        autoScaledTicks := a } := by
  obtain ⟨sq, ld, pl, pd, mr, idx, pos, ed, na, an, av⟩ := s
  cases pl <;> simp [commitLoad, stopPlayback]

/-- Exhaustive shape analysis of handleSequencePost: a rejected load emits
nothing and leaves the state unchanged except possibly for the cleared
autoScaledTicks flag, while an accepted load leaves the engine with the
pending intent cleared and playback stopped. -/
lemma handleSequencePost_err_cases (inp : LoadInput) (s : EngineState) :
    ((handleSequencePost inp s).err ≠ none →
      (handleSequencePost inp s).out = []
      ∧ ((handleSequencePost inp s).state = s
          ∨ (handleSequencePost inp s).state =
              { s with seq := { s.seq with autoScaledTicks := false } }))
    ∧ ((handleSequencePost inp s).err = none →
        (handleSequencePost inp s).state.startPending = false
        ∧ (handleSequencePost inp s).state.playing = false) := by
  by_cases h0 : inp.seqItems.length = 0
  · simp [handleSequencePost, h0]
  by_cases h1 : 0 < inp.ticksPerQuarter ∧ 65535 < inp.ticksPerQuarter
  · simp [handleSequencePost, h0, h1.1, h1.2]
  cases hval : validateLoop inp.seqItems 0 0 with
  | error e => simp [handleSequencePost, h0, h1, hval]
  | ok triple =>
    obtain ⟨evs, raws, g⟩ := triple
    by_cases h2 : 0 < inp.ticksPerQuarter
    · have hne : inp.ticksPerQuarter ≠ 0 := Nat.pos_iff_ne_zero.mp h2
      have h65 : ¬ 65535 < inp.ticksPerQuarter := fun hh => h1 ⟨h2, hh⟩
      cases hs : scaleExplicitList raws inp.ticksPerQuarter with
      | error e => simp [handleSequencePost, h0, h65, hval, h2, hne, hs]
      | ok scaled => simp [handleSequencePost, h0, h65, hval, h2, hne, hs]
    · have h2z : inp.ticksPerQuarter = 0 := Nat.eq_zero_of_not_pos h2
      by_cases h3 : 1 < implicitFactor g
      · cases him : scaleImplicitList (implicitFactor g) raws with
        | error e => simp [handleSequencePost, h0, h1, hval, h2z, h3, him]
        | ok scaled => simp [handleSequencePost, h0, h1, hval, h2z, h3, him]
      · cases hcr : checkRawList raws with
        | error e => simp [handleSequencePost, h0, h1, hval, h2z, h3, hcr]
        | ok scaled => simp [handleSequencePost, h0, h1, hval, h2z, h3, hcr]

/-- A clock pulse on a state that is neither playing nor pending never
starts playback. -/
lemma clock_noop (s : EngineState) (hpl : s.playing = false)
    (hp : s.startPending = false) : (handleMidiClock s).1.playing = false := by
  obtain ⟨sq, ld, pl, pd, mr, idx, pos, ed, na, an, av⟩ := s
  subst hpl
  subst hp
  cases mr <;> simp [handleMidiClock]

/-- The seeded gcd accumulation of the validation loop coincides with the
gcd, since gcd 0 t = t. -/
lemma seedGcd_eq (g t : Nat) : (if g = 0 then t else gcd32 g t) = Nat.gcd g t := by
  by_cases hg : g = 0 <;> simp [hg, gcd32]

/-- Characterization of a successful validation pass: the raw tick list is
the ticks of the items in order, the staged event list has one entry per
item, and the accumulated gcd folds Nat.gcd over the raw ticks. -/
lemma validateLoop_ok :
    ∀ (items : List EventInput) (cnt g : Nat) (evs : List MusicEvent)
      (raws : List Nat) (gOut : Nat),
      validateLoop items cnt g = Except.ok (evs, raws, gOut) →
      raws = items.map EventInput.ticks ∧ evs.length = items.length ∧
        gOut = List.foldl Nat.gcd g (items.map EventInput.ticks) := by
  intro items
  induction items with
  | nil =>
    intro cnt g evs raws gOut h
    simp [validateLoop] at h
    obtain ⟨h1, h2, h3⟩ := h
    subst h1
    subst h2
    subst h3
    simp
  | cons item rest ih =>
    intro cnt g evs raws gOut h
    simp only [validateLoop] at h
    rw [seedGcd_eq] at h
    split at h
    · simp at h
    split at h
    · simp at h
    split at h
    · split at h
      · simp at h
      split at h
      · simp at h
      rename_i heq
      simp only [Except.ok.injEq, Prod.mk.injEq] at h
      obtain ⟨h1, h2, h3⟩ := h
      obtain ⟨r1, r2, r3⟩ := ih _ _ _ _ _ heq
      subst h1
      subst h2
      subst h3
      simp [r1, r2, r3]
    · split at h
      · split at h
        · simp at h
        rename_i heq
        simp only [Except.ok.injEq, Prod.mk.injEq] at h
        obtain ⟨h1, h2, h3⟩ := h
        obtain ⟨r1, r2, r3⟩ := ih _ _ _ _ _ heq
        subst h1
        subst h2
        subst h3
        simp [r1, r2, r3]
      · simp at h

/-- Reading the ticks back from the zipped event list recovers the scaled
tick list whenever the lengths agree. -/
lemma zipTicks_map_ticks :
    ∀ (evs : List MusicEvent) (ts : List Nat), evs.length = ts.length →
      (zipTicks evs ts).map MusicEvent.ticks = ts := by
  intro evs
  induction evs with
  | nil =>
    intro ts h
    cases ts with
    | nil => rfl
    | cons t ts2 => simp at h
  | cons e es ih =>
    intro ts h
    cases ts with
    | nil => simp at h
    | cons t ts2 => simp [zipTicks, ih ts2 (by simpa using h)]

/-- A successful implicit downsampling pass maps every raw duration to its
quotient by the scale factor, floored to 1. -/
lemma scaleImplicitList_ok :
    ∀ (sf : Nat) (raws l : List Nat), scaleImplicitList sf raws = Except.ok l →
      l = raws.map (fun r => if r / sf = 0 then 1 else r / sf) := by
  intro sf raws
  induction raws with
  | nil =>
    intro l h
    simp [scaleImplicitList] at h
    subst h
    simp
  | cons t rest ih =>
    intro l h
    simp only [scaleImplicitList] at h
    by_cases h0 : t / sf = 0
    · simp [h0] at h
      cases heq : scaleImplicitList sf rest with
      | error e =>
        rw [heq] at h
        simp at h
      | ok l2 =>
        rw [heq] at h
        simp at h
        subst h
        simp [h0, ih _ heq]
    · by_cases h1 : 65535 < t / sf
      · simp [h0, h1] at h
      · simp [h0, h1] at h
        cases heq : scaleImplicitList sf rest with
        | error e =>
          rw [heq] at h
          simp at h
        | ok l2 =>
          rw [heq] at h
          simp at h
          subst h
          simp [h0, ih _ heq]

/-- A successful raw-range check returns the raw list unchanged. -/
lemma checkRawList_ok :
    ∀ (raws l : List Nat), checkRawList raws = Except.ok l → l = raws := by
  intro raws
  induction raws with
  | nil =>
    intro l h
    simp [checkRawList] at h
    subst h
    simp
  | cons t rest ih =>
    intro l h
    simp only [checkRawList] at h
    by_cases h1 : 65535 < t
    · simp [h1] at h
    · simp [h1] at h
      cases heq : checkRawList rest with
      | error e =>
        rw [heq] at h
        simp at h
      | ok l2 =>
        rw [heq] at h
        simp at h
        subst h
        simp [ih _ heq]

/-- Flooring a zero quotient to 1 is the same as taking the maximum
with 1. -/
lemma ifZeroOne_eq_max (x : Nat) : (if x = 0 then 1 else x) = max 1 x := by
  split <;> omega

/-- Claim C1, counterexample.  A one-event sequence is loaded, armed and
started; the clock pulse that reaches the end tick of the last event does
NOT leave the engine Idle: the index wraps to 0, the note is re-emitted and
the engine keeps Playing, refuting the claim that exhausting the sequence
stops playback. -/
theorem c1_loops_counterexample :
    (run [Op.load loadOneTick, Op.button, Op.start, Op.clock]).1.playing = true
    ∧ (run [Op.load loadOneTick, Op.button, Op.start, Op.clock]).1.currentEventIndex = 0
    ∧ (run [Op.load loadOneTick, Op.button, Op.start, Op.clock]).2 =
        [MidiMsg.noteOn 60 100 1, MidiMsg.noteOff 60 1, MidiMsg.noteOn 60 100 1] := by
  refine ⟨rfl, rfl, rfl⟩

/-- Claim C2.  Interleaving that leaves two notes sounding at once: note 60
starts on channel 1, a reload to channel 2 emits its silencing Note Off on
channel 2 (which cannot silence a channel-1 note), and re-arming starts
note 62 on channel 2, so the synth now holds both (62, 2) and (60, 1) -- a
stuck note and a violation of the monophonic invariant. -/
theorem c2_two_notes_sounding :
    soundingNotes (run [Op.load loadA, Op.button, Op.start, Op.load loadB, Op.button]).2 =
      [(62, 2), (60, 1)]
    ∧ (run [Op.load loadA, Op.button, Op.start, Op.load loadB, Op.button]).2 =
      [MidiMsg.noteOn 60 100 1, MidiMsg.noteOff 60 2, MidiMsg.noteOn 62 100 2] := by
  refine ⟨rfl, rfl⟩

/-- Claim C3.  The note sounding under the OLD sequence was started on
channel 1, yet the successful replacement load emits its Note Off on
channel 2 -- the channel of the NEW sequence -- because the commit block
overwrites the stored sequence before calling stopPlayback.  The new
channel is already visible in the state that emitted the Note Off. -/
theorem c3_noteOff_on_new_channel :
    (run [Op.load loadA, Op.button, Op.start]).2 = [MidiMsg.noteOn 60 100 1]
    ∧ (handleSequencePost loadB playingState).out = [MidiMsg.noteOff 60 2]
    ∧ (handleSequencePost loadB playingState).state.seq.channel = 2
    ∧ (handleSequencePost loadB playingState).err = none := by
  refine ⟨rfl, rfl, rfl, rfl⟩

/-- Claim C4, counterexample.  In the reachable state where the loadA note
is playing, handling Start and handling Continue produce different results:
Start silences the note and restarts event 0 (emitting Note Off and Note
On), Continue emits nothing and leaves the engine mid-sequence. -/
theorem c4_start_continue_differ :
    handleMidiStart playingState ≠ handleMidiContinue playingState
    ∧ (handleMidiStart playingState).2 = [MidiMsg.noteOff 60 1, MidiMsg.noteOn 60 100 1]
    ∧ (handleMidiContinue playingState).2 = ([] : List MidiMsg)
    ∧ playingState.playing = true := by
  refine ⟨by decide, rfl, rfl, rfl⟩

/-- Claim C5, counterexample.  Raw durations 48, 24, 96 have gcd 24, so the
implicit scale factor is 24 / 24 = 1 and the stored durations are the raw
values unchanged -- not the halved values 24, 12, 48 the claim predicts. -/
theorem c5_gcd24_unscaled_counterexample :
    (handleSequencePost load48 initState).state.seq.events.map MusicEvent.ticks = [48, 24, 96]
    ∧ (handleSequencePost load48 initState).state.seq.events.map MusicEvent.ticks ≠ [24, 12, 48]
    ∧ (handleSequencePost load48 initState).err = none
    ∧ (handleSequencePost load48 initState).state.seq.autoScaledTicks = false := by
  refine ⟨rfl, by decide, rfl, rfl⟩

/-- Claim C6.  Duration 178956971 at declared resolution 1 should scale to
178956971 * 24 = 4294967304, which exceeds 65535 and per the claim must be
rejected with ticks_after_scaling_out_of_range; instead the code truncates
the 64-bit quotient into uint32_t, obtaining 4294967304 mod 2^32 = 8, and
accepts the load with stored duration 8. -/
theorem c6_truncation_accepts_overflow :
    (handleSequencePost loadHuge initState).err = none
    ∧ (handleSequencePost loadHuge initState).state.seq.events.map MusicEvent.ticks = [8]
    ∧ 65535 < (178956971 * 24 + 1 / 2) / 1
    ∧ (handleSequencePost { seqItems := [noteItem 60 24], channel := 1, ticksPerQuarter := 48 }
        initState).state.seq.events.map MusicEvent.ticks = [12] := by
  refine ⟨rfl, rfl, by decide, rfl⟩

/-- Claim C7, counterexample.  After loadAuto the stored sequence has
autoScaledTicks = true; the failing loadScaleFail (rejected in the scaling
phase with ticks_after_scaling_out_of_range) leaves events, count and
channel untouched but resets autoScaledTicks to false, mutating the
provenance metadata of the previously loaded sequence. -/
theorem c7_autoscaled_clobbered :
    (handleSequencePost loadAuto initState).state.seq.autoScaledTicks = true
    ∧ (handleSequencePost loadScaleFail (handleSequencePost loadAuto initState).state).err =
        some LoadError.ticks_after_scaling_out_of_range
    ∧ (handleSequencePost loadScaleFail
        (handleSequencePost loadAuto initState).state).state.seq.autoScaledTicks = false
    ∧ (handleSequencePost loadScaleFail
        (handleSequencePost loadAuto initState).state).state.seq.events.map MusicEvent.ticks =
        [24, 24] := by
  refine ⟨rfl, rfl, rfl, rfl⟩

/-- Claim C8, counterexample.  A 65-item request whose first item violates
the duration rule is rejected with ticks_must_be_positive, not with
sequence_too_long: the capacity bound is only checked as each item is
reached, so the claim that over-long inputs always fail with
sequence_too_long is false. -/
theorem c8_item_error_preempts_too_long :
    64 < loadLongBadFirst.seqItems.length
    ∧ (handleSequencePost loadLongBadFirst initState).err =
        some LoadError.ticks_must_be_positive := by
  refine ⟨by decide, rfl⟩

/-- Claim C1, amended.  When the event index of a playing engine exhausts a
non-empty sequence, finishCurrentEvent wraps the index back to 0 and the
engine KEEPS Playing (looping), instead of stopping to Idle. -/
theorem c1_wrapAround :
    ∀ s : EngineState, s.playing = true → 0 < s.seq.events.length →
      s.seq.events.length ≤ s.currentEventIndex + 1 →
      (finishCurrentEvent s).1.currentEventIndex = 0
      ∧ (finishCurrentEvent s).1.playing = true := by
  intro s hp hn hidx
  obtain ⟨sq, ld, pl, pd, mr, idx, pos, ed, na, an, av⟩ := s
  subst hp
  have hn2 : sq.events.length ≠ 0 := Nat.pos_iff_ne_zero.mp hn
  simp only [finishCurrentEvent, startCurrentEvent, stopPlayback]
  simp [hidx, hn2]
  split <;> simp

/-- Witness for c1_wrapAround at the reachable playing state of loadA. -/
theorem c1_wrapAround_witness :
    (finishCurrentEvent playingState).1.currentEventIndex = 0
    ∧ (finishCurrentEvent playingState).1.playing = true :=
  c1_wrapAround playingState rfl (by decide) (by decide)

/-- Claim C4, amended.  Handling Continue coincides with handling Start in
every state that is not Playing; while Playing they differ: Start restarts
from event index 0, whereas Continue leaves the engine Playing at its
current event index (pending cannot be set while playing in reachable
states). -/
theorem c4_continue_vs_start :
    (∀ s : EngineState, s.playing = false → handleMidiStart s = handleMidiContinue s)
    ∧ (∀ s : EngineState, s.playing = true → s.sequenceLoaded = true →
        0 < s.seq.events.length →
        (handleMidiStart s).1.currentEventIndex = 0 ∧ (handleMidiStart s).1.playing = true)
    ∧ (∀ s : EngineState, s.playing = true → s.startPending = false →
        (handleMidiContinue s).1.currentEventIndex = s.currentEventIndex
        ∧ (handleMidiContinue s).1.playing = true) := by
  refine ⟨?_, ?_, ?_⟩
  · intro s h
    obtain ⟨sq, ld, pl, pd, mr, idx, pos, ed, na, an, av⟩ := s
    subst h
    simp [handleMidiStart, handleMidiContinue]
  · intro s hp hl hn
    obtain ⟨sq, ld, pl, pd, mr, idx, pos, ed, na, an, av⟩ := s
    subst hp
    subst hl
    have hn2 : sq.events.length ≠ 0 := Nat.pos_iff_ne_zero.mp hn
    simp only [handleMidiStart, stopPlayback, beginPlayback, startCurrentEvent]
    simp [hn2]
    split <;> simp
  · intro s hp hpend
    obtain ⟨sq, ld, pl, pd, mr, idx, pos, ed, na, an, av⟩ := s
    subst hp
    subst hpend
    simp [handleMidiContinue]

/-- Witness for c4_continue_vs_start at the boot state and at the reachable
playing state of loadA. -/
theorem c4_continue_vs_start_witness :
    handleMidiStart initState = handleMidiContinue initState
    ∧ ((handleMidiStart playingState).1.currentEventIndex = 0
        ∧ (handleMidiStart playingState).1.playing = true) :=
  ⟨c4_continue_vs_start.1 initState rfl,
   c4_continue_vs_start.2.1 playingState rfl rfl (by decide)⟩

/-- Claim C5, amended.  For a load with no declared resolution the stored
durations are: every raw duration divided by gcd/24 and floored to 1 when
the gcd of the raw durations is at least 24 and a multiple of 24 with
quotient above 1, and the raw durations unchanged otherwise.  In particular
48, 24, 96 (gcd 24, factor 1) stay 48, 24, 96; durations 24, 12, 36
(gcd 12) stay unscaled; and 96, 48, 192 (gcd 48, factor 2) scale to
48, 24, 96 with the autoScaled flag set. -/
theorem c5_implicit_scaling :
    (∀ (items : List EventInput) (c : Nat) (s : EngineState),
      (handleSequencePost { seqItems := items, channel := c, ticksPerQuarter := 0 } s).err =
          none →
      (handleSequencePost { seqItems := items, channel := c, ticksPerQuarter := 0 }
          s).state.seq.events.map MusicEvent.ticks =
        (items.map EventInput.ticks).map (fun r =>
          if 1 < implicitFactor (rawGcd items) then
            max 1 (r / implicitFactor (rawGcd items))
          else r))
    ∧ (handleSequencePost load48 initState).state.seq.events.map MusicEvent.ticks = [48, 24, 96]
    ∧ (handleSequencePost load2436 initState).state.seq.events.map MusicEvent.ticks = [24, 12, 36]
    ∧ (handleSequencePost load96 initState).state.seq.events.map MusicEvent.ticks = [48, 24, 96]
    ∧ (handleSequencePost load96 initState).state.seq.autoScaledTicks = true := by
  refine ⟨?_, rfl, rfl, rfl, rfl⟩
  intro items c s h
  by_cases h0 : items.length = 0
  · simp [handleSequencePost, h0] at h
  cases hval : validateLoop items 0 0 with
  | error e => simp [handleSequencePost, h0, hval] at h
  | ok triple =>
    obtain ⟨evs, raws, g⟩ := triple
    obtain ⟨hraws, hlen, hg⟩ := validateLoop_ok items 0 0 evs raws g hval
    have hgr : g = rawGcd items := by simpa [rawGcd] using hg
    subst hgr
    by_cases h3 : 1 < implicitFactor (rawGcd items)
    · cases him : scaleImplicitList (implicitFactor (rawGcd items)) raws with
      | error e => simp [handleSequencePost, h0, hval, h3, him] at h
      | ok scaled =>
        have hsc := scaleImplicitList_ok _ _ _ him
        have hlen2 : evs.length = scaled.length := by
          simp [hsc, hraws, hlen]
        simp [handleSequencePost, h0, hval, h3, him]
        rw [zipTicks_map_ticks evs scaled hlen2, hsc, hraws]
        simp [List.map_map, ifZeroOne_eq_max]
    · cases hcr : checkRawList raws with
      | error e => simp [handleSequencePost, h0, hval, h3, hcr] at h
      | ok scaled =>
        have hsc := checkRawList_ok _ _ hcr
        have hlen2 : evs.length = scaled.length := by
          simp [hsc, hraws, hlen]
        simp [handleSequencePost, h0, hval, h3, hcr]
        rw [zipTicks_map_ticks evs scaled hlen2, hsc, hraws]
        simp

/-- Witness for c5_implicit_scaling on the gcd-48 input, whose durations
scale by factor 2. -/
theorem c5_implicit_scaling_witness :
    (handleSequencePost
        { seqItems := [noteItem 60 96, noteItem 62 48, noteItem 64 192], channel := 1,
          ticksPerQuarter := 0 }
        initState).state.seq.events.map MusicEvent.ticks =
      ([noteItem 60 96, noteItem 62 48, noteItem 64 192].map EventInput.ticks).map
        (fun r =>
          if 1 < implicitFactor (rawGcd [noteItem 60 96, noteItem 62 48, noteItem 64 192]) then
            max 1 (r / implicitFactor (rawGcd [noteItem 60 96, noteItem 62 48, noteItem 64 192]))
          else r) :=
  c5_implicit_scaling.1 [noteItem 60 96, noteItem 62 48, noteItem 64 192] 1 initState rfl

/-- Claim C7, amended.  A rejected load emits nothing and leaves the whole
state unchanged EXCEPT that loads failing in the scaling phase have already
cleared the autoScaledTicks provenance flag of the stored sequence; every
other field (events, count, channel, timing, playback state) is untouched
in all failure cases. -/
theorem c7_failed_load_mutation (inp : LoadInput) (s : EngineState) (e : LoadError)
    (h : (handleSequencePost inp s).err = some e) :
    (handleSequencePost inp s).out = []
    ∧ ((handleSequencePost inp s).state = s
        ∨ (handleSequencePost inp s).state =
            { s with seq := { s.seq with autoScaledTicks := false } }) :=
  (handleSequencePost_err_cases inp s).1 (by simp [h])

/-- Witness for c7_failed_load_mutation at the scaling-phase failure that
follows an auto-scaled load. -/
theorem c7_failed_load_mutation_witness :
    (handleSequencePost loadScaleFail (handleSequencePost loadAuto initState).state).out = []
    ∧ ((handleSequencePost loadScaleFail (handleSequencePost loadAuto initState).state).state =
          (handleSequencePost loadAuto initState).state
        ∨ (handleSequencePost loadScaleFail (handleSequencePost loadAuto initState).state).state =
            { (handleSequencePost loadAuto initState).state with
              seq := { (handleSequencePost loadAuto initState).state.seq with
                       autoScaledTicks := false } }) :=
  c7_failed_load_mutation loadScaleFail (handleSequencePost loadAuto initState).state
    LoadError.ticks_after_scaling_out_of_range rfl

/-- Claim C8, amended.  The non-empty check is first; after that the items
are processed one at a time, and the capacity bound of 64 is checked only
as each item is reached, so sequence_too_long fires on reaching the 65th
item while earlier items are checked, per item, in the order duration
positive, then type valid, then note in range. -/
theorem c8_validation_order :
    (∀ (c t : Nat) (s : EngineState),
      (handleSequencePost { seqItems := [], channel := c, ticksPerQuarter := t } s).err =
        some LoadError.sequence_required)
    ∧ (∀ (item : EventInput) (rest : List EventInput) (cnt g : Nat),
        MAX_EVENTS ≤ cnt →
        validateLoop (item :: rest) cnt g = Except.error LoadError.sequence_too_long)
    ∧ (∀ (item : EventInput) (rest : List EventInput) (cnt g : Nat),
        cnt < MAX_EVENTS → item.ticks = 0 →
        validateLoop (item :: rest) cnt g = Except.error LoadError.ticks_must_be_positive)
    ∧ (∀ (item : EventInput) (rest : List EventInput) (cnt g : Nat),
        cnt < MAX_EVENTS → item.ticks ≠ 0 → item.type ≠ "note" → item.type ≠ "rest" →
        validateLoop (item :: rest) cnt g = Except.error LoadError.invalid_event_type)
    ∧ (∀ (item : EventInput) (rest : List EventInput) (cnt g : Nat),
        cnt < MAX_EVENTS → item.ticks ≠ 0 → item.type = "note" → 127 < item.note →
        validateLoop (item :: rest) cnt g = Except.error LoadError.note_out_of_range) := by
  refine ⟨?_, ?_, ?_, ?_, ?_⟩
  · intro c t s
    simp [handleSequencePost]
  · intro item rest cnt g hcnt
    simp [validateLoop, hcnt]
  · intro item rest cnt g hcnt ht
    simp [validateLoop, Nat.not_le.mpr hcnt, ht]
  · intro item rest cnt g hcnt ht hn hr
    simp [validateLoop, Nat.not_le.mpr hcnt, ht, hn, hr]
  · intro item rest cnt g hcnt ht hn hnote
    simp [validateLoop, Nat.not_le.mpr hcnt, ht, hn, hnote]

/-- Witness for c8_validation_order: the first item of the 65-item request
is rejected for its zero duration before the capacity bound is reached. -/
theorem c8_validation_order_witness :
    validateLoop (zeroTickItem :: List.replicate 64 (noteItem 60 24)) 0 0 =
      Except.error LoadError.ticks_must_be_positive :=
  c8_validation_order.2.2.1 zeroTickItem (List.replicate 64 (noteItem 60 24)) 0 0
    (by decide) rfl

/-- Claim C9.  stopPlayback is total: in every state and for either value
of keepPending it leaves the engine Idle with the cursor reset and the note
flag clear, emits exactly one Note Off when a note was sounding and nothing
otherwise, silences identically for both keepPending values, and is
idempotent (a repeated call changes nothing and emits nothing); a repeated
external Stop is likewise a no-op. -/
theorem c9_stop_semantics :
    ∀ (s : EngineState) (k : Bool),
      (stopPlayback k s).1.playing = false
      ∧ (stopPlayback k s).1.noteActive = false
      ∧ (stopPlayback k s).1.currentEventIndex = 0
      ∧ (stopPlayback k s).1.clockPosition = 0
      ∧ (stopPlayback k s).1.eventEndTick = 0
      ∧ (stopPlayback k s).2 =
          (if s.noteActive then [MidiMsg.noteOff s.activeNote (effChannel s)] else [])
      ∧ (stopPlayback true s).2 = (stopPlayback false s).2
      ∧ stopPlayback k (stopPlayback k s).1 = ((stopPlayback k s).1, [])
      ∧ handleMidiStop (handleMidiStop s).1 = ((handleMidiStop s).1, []) := by
  intro s k
  obtain ⟨sq, ld, pl, pd, mr, idx, pos, ed, na, an, av⟩ := s
  cases k <;> cases na <;> cases pl <;>
    simp [stopPlayback, handleMidiStop, effChannel]

/-- Claim C10.  Every accepted load leaves startPending cleared and the
engine not Playing, and a following clock pulse does not start playback on
its own. -/
theorem c10_load_clears_pending (inp : LoadInput) (s : EngineState)
    (h : (handleSequencePost inp s).err = none) :
    (handleSequencePost inp s).state.startPending = false
    ∧ (handleSequencePost inp s).state.playing = false
    ∧ (handleMidiClock (handleSequencePost inp s).state).1.playing = false := by
  obtain ⟨hp, hpl⟩ := (handleSequencePost_err_cases inp s).2 h
  exact ⟨hp, hpl, clock_noop _ hpl hp⟩

/-- Witness for c10_load_clears_pending: reloading while the loadA note is
playing clears the armed intent. -/
theorem c10_load_clears_pending_witness :
    (handleSequencePost loadA playingState).state.startPending = false
    ∧ (handleSequencePost loadA playingState).state.playing = false
    ∧ (handleMidiClock (handleSequencePost loadA playingState).state).1.playing = false :=
  c10_load_clears_pending loadA playingState rfl

end MidiMcp
